import Mathlib

/-
  Verification of the agent factory in `src/agentic3d/src/agentic3d/agents.py`.

  The file is a shallow embedding of the `AgentBuilder` class and of the three
  termination-predicate lambdas it installs.  Python values that the lambdas can
  see (the `"content"` field of a message) are modelled by `PyVal`; Python's
  short-circuiting `and`, its truthiness, and the exceptions that `rstrip` /
  `in` would raise on a non-string operand are modelled explicitly, so each
  lambda becomes a total Lean function into `Except String PyVal` where
  `Except.error` marks a raised exception and `Except.ok v` the returned value.
-/

namespace Agentic3d

/-- A Python value as far as the termination lambdas can observe one:
`None`, a `bool`, or a `str`. -/
inductive PyVal where
  | none
  | bool (b : Bool)
  | str (s : String)
deriving DecidableEq, Repr

/-- Python truthiness: `None` and `False` are falsy, a string is truthy
iff it is non-empty. -/
def PyVal.isTruthy : PyVal → Bool
  | PyVal.none => false
  | PyVal.bool b => b
  | PyVal.str _s => !(_s == "")

/-- Whether a Python value is a `bool`. -/
def PyVal.isBool : PyVal → Bool
  | PyVal.bool _ => true
  | _ => false

/-- A message as consumed by the termination lambdas.  Both lambdas in the
source access only the `"content"` key, so the embedding keeps just that
field; `content = Option.none` models a mapping without a `"content"` key. -/
structure Message where
  content : Option PyVal
deriving DecidableEq, Repr

/-- Models Python `msg.get("content", dflt)`. -/
def Message.get (m : Message) (dflt : PyVal) : PyVal :=
  m.content.getD dflt

/-- The characters stripped by Python `str.rstrip()` with no argument
(ASCII whitespace: space, tab, newline, carriage return, vertical tab,
form feed). -/
def pyIsSpace (c : Char) : Bool :=
  c == ' ' || c == '\t' || c == '\n' || c == '\r' || c == '\u000B' || c == '\u000C'

/-- Models Python `s.rstrip()`: remove trailing whitespace. -/
def pyRstrip (s : String) : String :=
  ⟨(s.toList.reverse.dropWhile pyIsSpace).reverse⟩

/-- Models Python `s.endswith(suffix)`. -/
def pyEndswith (s suffix : String) : Bool :=
  List.isSuffixOf suffix.toList s.toList

/-- Helper for `pyContains`: does `n` occur as a contiguous run inside the
second list? -/
def containsSubAux (n : List Char) : List Char → Bool
  | [] => n.isEmpty
  | c :: t => List.isPrefixOf n (c :: t) || containsSubAux n t

/-- Models Python `needle in hay` on strings: substring containment. -/
def pyContains (needle hay : String) : Bool :=
  containsSubAux needle.toList hay.toList

/-- Modelled from the spec: `LLM_CONFIG` comes from `agentic3d._constants`,
a module not present under `src/`; the spec describes it as an opaque shared
LLM configuration value (model name, credentials, endpoint), so it is
embedded as an opaque-by-construction singleton type. -/
structure LLMConfig where
deriving DecidableEq, Repr

/-- The single shared configuration value imported by `agents.py`. -/
def LLM_CONFIG : LLMConfig := {}

/-- The `is_termination_msg` lambda of `build_designer_agent`
(`agents.py` lines 77-78):
`lambda x: x.get("content", "") and x.get("content", "").rstrip().endswith("TERMINATE")`.
Python `and` returns the left operand when it is falsy, otherwise the right
operand; `.rstrip()` on a non-string would raise `AttributeError`. -/
def designer_is_termination_msg (x : Message) : Except String PyVal :=
  let lhs := x.get (PyVal.str "")
  if lhs.isTruthy then
    match x.get (PyVal.str "") with
    | PyVal.str s => Except.ok (PyVal.bool (pyEndswith (pyRstrip s) "TERMINATE"))
    | _ => Except.error "AttributeError: object has no attribute rstrip"
  else
    Except.ok lhs

/-- The `is_termination_msg` lambda of `build_feedback_agent`
(`agents.py` lines 114-115):
`lambda msg: msg.get("content") is not None and "TERMINATE_MATCH" in msg["content"]`.
When `msg.get("content")` is `None` the `and` short-circuits to `False`;
otherwise `in` on a non-string operand would raise `TypeError`. -/
def feedback_is_termination_msg (msg : Message) : Except String PyVal :=
  match msg.content.getD PyVal.none with
  | PyVal.none => Except.ok (PyVal.bool false)
  | PyVal.str s => Except.ok (PyVal.bool (pyContains "TERMINATE_MATCH" s))
  | PyVal.bool _ => Except.error "TypeError: argument of type bool is not iterable"

/-- The `is_termination_msg` lambda of `build_prompt_improver_agent`
(`agents.py` lines 125-126), textually identical to the feedback one. -/
def prompt_improver_is_termination_msg (msg : Message) : Except String PyVal :=
  match msg.content.getD PyVal.none with
  | PyVal.none => Except.ok (PyVal.bool false)
  | PyVal.str s => Except.ok (PyVal.bool (pyContains "TERMINATE_MATCH" s))
  | PyVal.bool _ => Except.error "TypeError: argument of type bool is not iterable"

/-- The truthiness of a predicate result: whether the agent runtime would
treat the returned value as a trigger.  A raised exception never triggers. -/
def resultTruthy : Except String PyVal → Bool
  | Except.ok v => v.isTruthy
  | Except.error _ => false

/-- Whether a predicate call returned an actual `bool` (as opposed to a
falsy non-boolean value or an exception). -/
def isBoolResult : Except String PyVal → Bool
  | Except.ok (PyVal.bool _) => true
  | _ => false

/-- The agent classes instantiated by the factory. -/
inductive AgentClass where
  | UserProxyAgent
  | ConversableAgent
  | MultimodalConversableAgent
deriving DecidableEq, Repr

/-- The construction parameters this code passes to an agent constructor.
A field holding `Option.none` models a keyword argument that the call site
does not pass (left to the runtime's default). -/
structure Agent where
  cls : AgentClass
  name : String
  system_message : Option String
  llm_config : LLMConfig
  human_input_mode : Option String
  code_execution_config : Option Bool
  is_termination_msg : Option (Message → Except String PyVal)
  max_consecutive_auto_reply : Option Nat

instance : Inhabited Agent :=
  ⟨{ cls := AgentClass.UserProxyAgent, name := "", system_message := Option.none,
     llm_config := LLM_CONFIG, human_input_mode := Option.none,
     code_execution_config := Option.none, is_termination_msg := Option.none,
     max_consecutive_auto_reply := Option.none }⟩

/-- `AgentBuilder.build_designer_agent` (`agents.py` lines 72-81). -/
def build_designer_agent : Agent :=
  { cls := AgentClass.UserProxyAgent
    name := "designer"
    system_message := Option.none
    llm_config := LLM_CONFIG
    human_input_mode := Option.some "NEVER"
    code_execution_config := Option.some false
    is_termination_msg := Option.some designer_is_termination_msg
    max_consecutive_auto_reply := Option.some 1 }

/-- `AgentBuilder.build_openscad_generator_agent` (`agents.py` lines 93-98). -/
def build_openscad_generator_agent (system_message : String) : Agent :=
  { cls := AgentClass.ConversableAgent
    name := "openscad_generator"
    system_message := Option.some system_message
    llm_config := LLM_CONFIG
    human_input_mode := Option.none
    code_execution_config := Option.none
    is_termination_msg := Option.none
    max_consecutive_auto_reply := Option.none }

/-- `AgentBuilder.build_feedback_agent` (`agents.py` lines 110-117). -/
def build_feedback_agent (system_message : String) : Agent :=
  { cls := AgentClass.MultimodalConversableAgent
    name := "feedback"
    system_message := Option.some system_message
    llm_config := LLM_CONFIG
    human_input_mode := Option.some "NEVER"
    code_execution_config := Option.none
    is_termination_msg := Option.some feedback_is_termination_msg
    max_consecutive_auto_reply := Option.none }

/-- `AgentBuilder.build_prompt_improver_agent` (`agents.py` lines 120-130). -/
def build_prompt_improver_agent (system_message : String) : Agent :=
  { cls := AgentClass.ConversableAgent
    name := "prompt_improver"
    system_message := Option.some system_message
    llm_config := LLM_CONFIG
    human_input_mode := Option.some "NEVER"
    code_execution_config := Option.none
    is_termination_msg := Option.some prompt_improver_is_termination_msg
    max_consecutive_auto_reply := Option.some 1 }

/-- The state of an `AgentBuilder` instance after `__init__`:
the ordered list `self.all_agents` and the insertion-ordered mapping
`self.all_agents_dict` (a Python dict keeps insertion order, so it is
embedded as an association list). -/
structure AgentBuilder where
  all_agents : List Agent
  all_agents_dict : List (String × Agent)

/-- `AgentBuilder.__init__` (`agents.py` lines 29-57).  The last three
parameters are accepted but used only by commented-out code. -/
def AgentBuilder.init (generator_system_message feedback_system_message
    prompt_improver_system_message commander_system_message
    coder_system_message critic_system_message : String) : AgentBuilder :=
  let all_agents : List Agent :=
    [ build_designer_agent,
      build_openscad_generator_agent generator_system_message,
      build_feedback_agent feedback_system_message,
      build_prompt_improver_agent prompt_improver_system_message ]
  { all_agents := all_agents
    all_agents_dict :=
      [ ("user_designer_agent", all_agents.getD 0 default),
        ("openscad_generator_agent", all_agents.getD 1 default),
        ("feedback_agent", all_agents.getD 2 default),
        ("prompt_improver_agent", all_agents.getD 3 default) ] }

/-- `AgentBuilder.get_all_agents`.  Methods are embedded in state-passing
style, returning the result together with the (unchanged) receiver so that
absence of mutation is a provable statement. -/
def AgentBuilder.get_all_agents (self : AgentBuilder) :
    List Agent × AgentBuilder :=
  (self.all_agents, self)

/-- `AgentBuilder.get_all_agents_dict`. -/
def AgentBuilder.get_all_agents_dict (self : AgentBuilder) :
    List (String × Agent) × AgentBuilder :=
  (self.all_agents_dict, self)

/-- `AgentBuilder.print_agents` (`agents.py` lines 169-174): the first
component lists the lines written to standard output (one agent name per
loop iteration), the `Unit` models the Python `None` return value. -/
def AgentBuilder.print_agents (self : AgentBuilder) :
    (List String × Unit) × AgentBuilder :=
  ((self.all_agents.map Agent.name, ()), self)

/- ---------------------------------------------------------------------
   Helper lemmas: the executable string tests agree with their
   mathematical meaning (suffix / substring as list decompositions).
   --------------------------------------------------------------------- -/

lemma isPrefixOf_iff_exists (n : List Char) :
    ∀ l : List Char, List.isPrefixOf n l = true ↔ ∃ t, l = n ++ t := by
  induction n with
  | nil =>
    intro l
    constructor
    · intro _
      exact ⟨l, rfl⟩
    · intro _
      cases l with
      | nil => rfl
      | cons b bs => rfl
  | cons a as ih =>
    intro l
    cases l with
    | nil =>
      simp [List.isPrefixOf]
    | cons b bs =>
      constructor
      · intro h
        have h1 : (a == b) = true ∧ List.isPrefixOf as bs = true := by
          simpa [List.isPrefixOf, Bool.and_eq_true] using h
        obtain ⟨t, ht⟩ := (ih bs).mp h1.2
        have hab : a = b := by
          exact eq_of_beq h1.1
        exact ⟨t, by simp [ht, hab]⟩
      · intro h
        obtain ⟨t, ht⟩ := h
        have hb : b = a := by
          simpa using congrArg (fun l => l.headD a) ht
        have hbs : bs = as ++ t := by
          simpa using congrArg List.tail ht
        have h2 : List.isPrefixOf as bs = true := (ih bs).mpr ⟨t, hbs⟩
        simp [List.isPrefixOf, hb, h2]

lemma isSuffixOf_iff_exists (n l : List Char) :
    List.isSuffixOf n l = true ↔ ∃ p, l = p ++ n := by
  unfold List.isSuffixOf
  rw [isPrefixOf_iff_exists]
  constructor
  · intro h
    obtain ⟨t, ht⟩ := h
    refine ⟨t.reverse, ?_⟩
    have := congrArg List.reverse ht
    simpa using this
  · intro h
    obtain ⟨p, hp⟩ := h
    exact ⟨p.reverse, by simp [hp]⟩

lemma containsSubAux_iff_exists (n : List Char) :
    ∀ l : List Char, containsSubAux n l = true ↔ ∃ l₁ l₂, l = l₁ ++ n ++ l₂ := by
  intro l
  induction l with
  | nil =>
    cases n with
    | nil =>
      constructor
      · intro _
        exact ⟨[], [], rfl⟩
      · intro _
        rfl
    | cons c t =>
      simp [containsSubAux]
  | cons c t ih =>
    constructor
    · intro h
      have h2 : List.isPrefixOf n (c :: t) = true ∨ containsSubAux n t = true := by
        simpa [containsSubAux, Bool.or_eq_true] using h
      cases h2 with
      | inl hp =>
        obtain ⟨r, hr⟩ := (isPrefixOf_iff_exists n (c :: t)).mp hp
        exact ⟨[], r, by simp [hr]⟩
      | inr hc =>
        obtain ⟨l₁, l₂, hl⟩ := ih.mp hc
        exact ⟨c :: l₁, l₂, by simp [hl]⟩
    · intro h
      obtain ⟨l₁, l₂, hl⟩ := h
      cases l₁ with
      | nil =>
        have hp : List.isPrefixOf n (c :: t) = true :=
          (isPrefixOf_iff_exists n (c :: t)).mpr ⟨l₂, by simpa using hl⟩
        simp [containsSubAux, hp]
      | cons d ds =>
        have hd : t = ds ++ n ++ l₂ := by
          simpa using congrArg List.tail hl
        have hc : containsSubAux n t = true := ih.mpr ⟨ds, l₂, hd⟩
        simp [containsSubAux, hc]

lemma pyContains_iff (needle hay : String) :
    pyContains needle hay = true ↔
      ∃ l₁ l₂, hay.toList = l₁ ++ needle.toList ++ l₂ :=
  containsSubAux_iff_exists needle.toList hay.toList

lemma pyEndswith_iff (s suffix : String) :
    pyEndswith s suffix = true ↔ ∃ p, s.toList = p ++ suffix.toList :=
  isSuffixOf_iff_exists suffix.toList s.toList

lemma designer_on_str (s : String) :
    designer_is_termination_msg { content := Option.some (PyVal.str s) }
      = if s == "" then Except.ok (PyVal.str "")
        else Except.ok (PyVal.bool (pyEndswith (pyRstrip s) "TERMINATE")) := by
  by_cases h : s = ""
  · subst h
    rfl
  · have hb : (s == "") = false := by
      exact beq_eq_false_iff_ne.mpr h
    simp [designer_is_termination_msg, Message.get, PyVal.isTruthy, hb]

/- ---------------------------------------------------------------------
   Claim theorems.
   --------------------------------------------------------------------- -/

/-- C1: the designer agent's termination predicate triggers exactly when
the message content, after trimming trailing whitespace, ends with the
sentinel `"TERMINATE"`; in particular it triggers on
`{"content": "Looks great. TERMINATE"}` and not on
`{"content": "Looks great."}` or `{"content": ""}`. -/
theorem designer_termination_correct :
    (∀ s : String,
        resultTruthy (designer_is_termination_msg
            { content := Option.some (PyVal.str s) })
          = pyEndswith (pyRstrip s) "TERMINATE")
    ∧ (∀ s : String,
        resultTruthy (designer_is_termination_msg
            { content := Option.some (PyVal.str s) }) = true
          ↔ ∃ p, (pyRstrip s).toList = p ++ ("TERMINATE").toList)
    ∧ resultTruthy (designer_is_termination_msg
        { content := Option.some (PyVal.str "Looks great. TERMINATE") }) = true
    ∧ resultTruthy (designer_is_termination_msg
        { content := Option.some (PyVal.str "Looks great.") }) = false
    ∧ resultTruthy (designer_is_termination_msg
        { content := Option.some (PyVal.str "") }) = false := by
  have key : ∀ s : String,
      resultTruthy (designer_is_termination_msg
          { content := Option.some (PyVal.str s) })
        = pyEndswith (pyRstrip s) "TERMINATE" := by
    intro s
    rw [designer_on_str]
    by_cases h : s = ""
    · subst h
      decide
    · have hb : (s == "") = false := by
        exact beq_eq_false_iff_ne.mpr h
      simp [hb, resultTruthy, PyVal.isTruthy]
  refine ⟨key, ?_, by rw [key]; decide, by rw [key]; decide, by rw [key]; decide⟩
  intro s
  rw [key]
  exact pyEndswith_iff (pyRstrip s) "TERMINATE"

/-- C2: the feedback and prompt-improver termination predicates are the
same rule; on any string content they return the boolean of substring
containment of `"TERMINATE_MATCH"`, triggering exactly when the sentinel
occurs somewhere in the content, and they return `False` when the
`"content"` key is absent. -/
theorem feedback_improver_termination_correct :
    feedback_is_termination_msg = prompt_improver_is_termination_msg
    ∧ (∀ s : String,
        feedback_is_termination_msg { content := Option.some (PyVal.str s) }
          = Except.ok (PyVal.bool (pyContains "TERMINATE_MATCH" s)))
    ∧ (∀ s : String,
        feedback_is_termination_msg { content := Option.some (PyVal.str s) }
            = Except.ok (PyVal.bool true)
          ↔ ∃ l₁ l₂, s.toList = l₁ ++ ("TERMINATE_MATCH").toList ++ l₂)
    ∧ feedback_is_termination_msg { content := Option.none }
        = Except.ok (PyVal.bool false)
    ∧ prompt_improver_is_termination_msg { content := Option.none }
        = Except.ok (PyVal.bool false) := by
  refine ⟨rfl, fun s => rfl, ?_, rfl, rfl⟩
  intro s
  have hred : feedback_is_termination_msg { content := Option.some (PyVal.str s) }
      = Except.ok (PyVal.bool (pyContains "TERMINATE_MATCH" s)) := rfl
  constructor
  · intro h
    have hb : pyContains "TERMINATE_MATCH" s = true := by
      rw [hred] at h
      simpa using h
    exact (pyContains_iff "TERMINATE_MATCH" s).mp hb
  · intro h
    have hb : pyContains "TERMINATE_MATCH" s = true :=
      (pyContains_iff "TERMINATE_MATCH" s).mpr h
    rw [hred, hb]

/-- C3: for all six input strings the factory builds exactly four agents;
`get_all_agents` returns them in order designer, generator, feedback,
prompt-improver; `get_all_agents_dict` has exactly the four fixed keys,
each bound to the agent at the corresponding list position; and none of
the accessor operations mutates the builder. -/
theorem registry_consistent :
    ∀ gsm fsm pism csm1 csm2 csm3 : String,
      ((AgentBuilder.init gsm fsm pism csm1 csm2 csm3).get_all_agents).1.length = 4
      ∧ ((AgentBuilder.init gsm fsm pism csm1 csm2 csm3).get_all_agents).1
          = [ build_designer_agent,
              build_openscad_generator_agent gsm,
              build_feedback_agent fsm,
              build_prompt_improver_agent pism ]
      ∧ ((AgentBuilder.init gsm fsm pism csm1 csm2 csm3).get_all_agents).1.map Agent.name
          = ["designer", "openscad_generator", "feedback", "prompt_improver"]
      ∧ ((AgentBuilder.init gsm fsm pism csm1 csm2 csm3).get_all_agents_dict).1.map Prod.fst
          = [ "user_designer_agent", "openscad_generator_agent",
              "feedback_agent", "prompt_improver_agent" ]
      ∧ ((AgentBuilder.init gsm fsm pism csm1 csm2 csm3).get_all_agents_dict).1
          = List.zip
              [ "user_designer_agent", "openscad_generator_agent",
                "feedback_agent", "prompt_improver_agent" ]
              ((AgentBuilder.init gsm fsm pism csm1 csm2 csm3).get_all_agents).1
      ∧ ((AgentBuilder.init gsm fsm pism csm1 csm2 csm3).get_all_agents).2
          = AgentBuilder.init gsm fsm pism csm1 csm2 csm3
      ∧ ((AgentBuilder.init gsm fsm pism csm1 csm2 csm3).get_all_agents_dict).2
          = AgentBuilder.init gsm fsm pism csm1 csm2 csm3
      ∧ ((AgentBuilder.init gsm fsm pism csm1 csm2 csm3).print_agents).2
          = AgentBuilder.init gsm fsm pism csm1 csm2 csm3 := by
  intro gsm fsm pism csm1 csm2 csm3
  exact ⟨rfl, rfl, rfl, rfl, rfl, rfl, rfl, rfl⟩

/-- C4 counterexample: on the message `{"content": ""}` the designer
predicate returns the empty string itself (Python `and` yields its falsy
left operand), which is not a boolean. -/
theorem designer_not_boolean_on_empty :
    designer_is_termination_msg { content := Option.some (PyVal.str "") }
        = Except.ok (PyVal.str "")
    ∧ PyVal.isBool (PyVal.str "") = false :=
  ⟨rfl, rfl⟩

/-- C4 amended: on string contents the feedback and prompt-improver
predicates always return a boolean; the designer predicate returns a
boolean exactly when the content is non-empty, and on the empty string it
returns the (falsy, non-boolean) empty string itself. -/
theorem termination_results_classified :
    (∀ s : String, isBoolResult (feedback_is_termination_msg
        { content := Option.some (PyVal.str s) }) = true)
    ∧ (∀ s : String, isBoolResult (prompt_improver_is_termination_msg
        { content := Option.some (PyVal.str s) }) = true)
    ∧ (∀ s : String, isBoolResult (designer_is_termination_msg
        { content := Option.some (PyVal.str s) }) = !(s == ""))
    ∧ designer_is_termination_msg { content := Option.some (PyVal.str "") }
        = Except.ok (PyVal.str "")
    ∧ PyVal.isTruthy (PyVal.str "") = false := by
  refine ⟨fun s => rfl, fun s => rfl, ?_, rfl, rfl⟩
  intro s
  rw [designer_on_str]
  by_cases h : s = ""
  · subst h
    decide
  · have hb : (s == "") = false := by
      exact beq_eq_false_iff_ne.mpr h
    simp [hb, isBoolResult]

/-- C5: the commander, coder, and critic system-message parameters have no
effect: two constructions agreeing on the generator, feedback, and
prompt-improver messages yield equal builder states (same agent list and
same mapping), whatever the other three strings are. -/
theorem unused_params_have_no_effect :
    ∀ gsm fsm pism csm1 csm2 csm3 csm4 csm5 csm6 : String,
      AgentBuilder.init gsm fsm pism csm1 csm2 csm3
        = AgentBuilder.init gsm fsm pism csm4 csm5 csm6 := by
  intro gsm fsm pism csm1 csm2 csm3 csm4 csm5 csm6
  rfl

/-- C6: `print_agents` writes exactly the four configured agent names, one
per loop iteration, in construction order, returns `None`, and leaves the
builder unchanged. -/
theorem print_agents_output :
    ∀ gsm fsm pism csm1 csm2 csm3 : String,
      ((AgentBuilder.init gsm fsm pism csm1 csm2 csm3).print_agents).1
          = (["designer", "openscad_generator", "feedback", "prompt_improver"], ())
      ∧ ((AgentBuilder.init gsm fsm pism csm1 csm2 csm3).print_agents).2
          = AgentBuilder.init gsm fsm pism csm1 csm2 csm3 := by
  intro gsm fsm pism csm1 csm2 csm3
  exact ⟨rfl, rfl⟩

/-- C7: the generator agent is built passing only name, LLM configuration
and the given system message; every other constructor argument, the
termination predicate included, is left unset (runtime default). -/
theorem generator_agent_fields :
    ∀ sm : String,
      build_openscad_generator_agent sm
        = { cls := AgentClass.ConversableAgent
            name := "openscad_generator"
            system_message := Option.some sm
            llm_config := LLM_CONFIG
            human_input_mode := Option.none
            code_execution_config := Option.none
            is_termination_msg := Option.none
            max_consecutive_auto_reply := Option.none } := by
  intro sm
  rfl

/-- C8: the designer agent is always configured with human input mode
`"NEVER"`, at most one consecutive auto-reply, and code execution
disabled. -/
theorem designer_agent_config :
    build_designer_agent.human_input_mode = Option.some "NEVER"
    ∧ build_designer_agent.max_consecutive_auto_reply = Option.some 1
    ∧ build_designer_agent.code_execution_config = Option.some false :=
  ⟨rfl, rfl, rfl⟩

/-- C9: for every system message, the prompt-improver agent is configured
with human input mode `"NEVER"` and at most one consecutive auto-reply. -/
theorem prompt_improver_agent_config :
    ∀ sm : String,
      (build_prompt_improver_agent sm).human_input_mode = Option.some "NEVER"
      ∧ (build_prompt_improver_agent sm).max_consecutive_auto_reply
          = Option.some 1 := by
  intro sm
  exact ⟨rfl, rfl⟩

/-- C10: the predicates are total at the uncovered edge cases: with the
`"content"` key missing the designer predicate evaluates, without raising,
to the default empty string, a falsy value; with `"content"` present but
`None`, the feedback and prompt-improver predicates return `False` without
raising. -/
theorem termination_edge_cases_total :
    designer_is_termination_msg { content := Option.none }
        = Except.ok (PyVal.str "")
    ∧ PyVal.isTruthy (PyVal.str "") = false
    ∧ feedback_is_termination_msg { content := Option.some PyVal.none }
        = Except.ok (PyVal.bool false)
    ∧ prompt_improver_is_termination_msg { content := Option.some PyVal.none }
        = Except.ok (PyVal.bool false) :=
  ⟨rfl, rfl, rfl, rfl⟩

end Agentic3d
